import Mathlib

/-!
Verification of the SystemTap SDT v3 backend (`usdt-impl/src/stap3.rs`) of the
`usdt` crate, against its natural-language specification.

The probe-record emitters in the source build multi-line GNU assembler text via
`format!`.  We embed each emitted assembly line as a structured directive
(`AsmLine`), one constructor application per source line, in source order; the
inline trailing `//` comments of the source are elided, full-line comments are
kept as `AsmLine.comment`.  String interpolation holes of the source become the
corresponding Lean string expressions.

Types that live outside the provided sources (the `DataType` lexicon, the
provider structures, the compile configuration, the external D-script parser
and the argument marshaller of `common.rs`) are modelled from the specification
and marked as such in their doc comments.
-/

/-- Modelled from the spec: `crate::DataType` (the data-type lexicon of §4.B /
§6) is not under the provided sources.  A closed sum of the recognized probe
parameter types: native integers of widths 8/16/32/64 signed and unsigned, the
`char *` and `string` pointer types, and serializable compound types (lowered
to `char *` after JSON rendering). -/
inductive DataType where
  | uint8
  | uint16
  | uint32
  | uint64
  | int8
  | int16
  | int32
  | int64
  | charPointer
  | stringType
  | serializable
deriving DecidableEq, Repr

/-- Modelled from the spec: the AMD64 SysV integer-argument registers for
byte-wide operands, in positional order. -/
def byteRegisters : List String := ["%dil", "%sil", "%dl", "%cl", "%r8b", "%r9b"]

/-- Modelled from the spec: the 16-bit aliases of the argument registers. -/
def wordRegisters : List String := ["%di", "%si", "%dx", "%cx", "%r8w", "%r9w"]

/-- Modelled from the spec: the 32-bit aliases of the argument registers. -/
def dwordRegisters : List String := ["%edi", "%esi", "%edx", "%ecx", "%r8d", "%r9d"]

/-- Modelled from the spec: the 64-bit aliases of the argument registers. -/
def qwordRegisters : List String := ["%rdi", "%rsi", "%rdx", "%rcx", "%r8", "%r9"]

/-- Modelled from the spec: `DataType::to_asm_size` is not under the provided
sources.  The size code is `1|2|4|8` with a `-` prefix if signed; pointers,
strings and serialized compounds are 8-byte pointers on the 64-bit target. -/
def DataType.to_asm_size : DataType → String
  | .uint8 => "1"
  | .uint16 => "2"
  | .uint32 => "4"
  | .uint64 => "8"
  | .int8 => "-1"
  | .int16 => "-2"
  | .int32 => "-4"
  | .int64 => "-8"
  | .charPointer => "8"
  | .stringType => "8"
  | .serializable => "8"

/-- Modelled from the spec: the register alias list used for a given data type,
selected by the type's width. -/
def DataType.registerList : DataType → List String
  | .uint8 => byteRegisters
  | .int8 => byteRegisters
  | .uint16 => wordRegisters
  | .int16 => wordRegisters
  | .uint32 => dwordRegisters
  | .int32 => dwordRegisters
  | .uint64 => qwordRegisters
  | .int64 => qwordRegisters
  | .charPointer => qwordRegisters
  | .stringType => qwordRegisters
  | .serializable => qwordRegisters

/-- Modelled from the spec: `DataType::to_asm_op` is not under the provided
sources.  It renders the textual ABI operand naming the integer-argument
register of the given positional index, at the alias width of the type. -/
def DataType.to_asm_op (t : DataType) (regIndex : Nat) : String :=
  (t.registerList).getD regIndex ""

/-- One emitted assembly line of a probe record, as produced by the `format!`
templates in `emit_isenabled_probe_record` and `emit_probe_record`.  Each
constructor mirrors one assembler directive of the source text. -/
inductive AsmLine where
  | comment (text : String)
  | ifndef (sym : String)
  | endif
  | pushsection (args : String)
  | popsection
  | weak (sym : String)
  | hidden (sym : String)
  | label (sym : String)
  | zero (n : Nat)
  | typeDir (sym : String) (kind : String)
  | sizeDir (sym : String) (n : Nat)
  | balign (n : Nat)
  | byte4 (args : String)
  | byte8 (arg : String)
  | asciz (s : String)
  | spaceDir (n : Nat)
deriving DecidableEq, Repr

/-- The semaphore symbol name, `format!("__usdt_sema_{}_{}", prov, probe)`
from `emit_isenabled_probe_record` (and `format_ident!` in `compile_probe`),
built from the unsubstituted provider and probe names. -/
def sema_name (prov probe : String) : String :=
  "__usdt_sema_" ++ prov ++ "_" ++ probe

/-- The `section_ident` constant of both emitters in `stap3.rs`. -/
def note_section_ident : String := ".note.stapsdt, \"\", \"note\""

/-- The anchor symbol name `_.stapsdt.base` referenced by both emitters. -/
def stapsdt_base_sym : String := "_.stapsdt.base"

/-- The is-enabled probe record of `emit_isenabled_probe_record` in
`stap3.rs` (lines 74-123), one `AsmLine` per emitted assembler line.  The
semaphore symbol uses the raw probe name; the `.asciz` probe-name string uses
`probe.replace("__", "-")`, exactly as in the source's format arguments. -/
def emit_isenabled_probe_record (prov probe : String) : List AsmLine :=
  [ .comment "First define the semaphore",
    .ifndef (sema_name prov probe),
    .pushsection ".probes, \"aw\", \"progbits\"",
    .weak (sema_name prov probe),
    .hidden (sema_name prov probe),
    .label (sema_name prov probe),
    .zero 2,
    .typeDir (sema_name prov probe) "@object",
    .sizeDir (sema_name prov probe) 2,
    .popsection,
    .endif,
    .comment "Second define the is_enabled probe which uses the semaphore",
    .pushsection note_section_ident,
    .balign 4,
    .byte4 "992f-991f, 994f-993f, 3",
    .label "991",
    .asciz "stapsdt",
    .label "992",
    .balign 4,
    .label "993",
    .byte8 "990b",
    .byte8 "_.stapsdt.base",
    .byte8 (sema_name prov probe),
    .asciz prov,
    .asciz (String.replace probe "__" "-"),
    .asciz "",
    .label "994",
    .balign 4,
    .popsection,
    .comment "Finally define the base for whatever it is needed (RIP).",
    .ifndef stapsdt_base_sym,
    .pushsection ".stapsdt.base, \"aG\", \"progbits\", .stapsdt.base, comdat",
    .weak "_.stapsdt.base",
    .hidden "_.stapsdt.base",
    .label "_.stapsdt.base",
    .spaceDir 1,
    .sizeDir "_.stapsdt.base" 1,
    .popsection,
    .endif ]

/-- The argument-format string of `emit_probe_record` (lines 127-139):
`types.map_or_else(String::new, |types| types.iter().enumerate().map(...)
.join(" "))`, where each entry is `format!("{}@{}", typ.to_asm_size(),
typ.to_asm_op(reg_index as u8))`.  The `as u8` cast is modelled as `% 256`. -/
def probe_arg_format (types : Option (List DataType)) : String :=
  match types with
  | none => ""
  | some ts =>
    String.intercalate " "
      (ts.enum.map fun p => p.2.to_asm_size ++ "@" ++ p.2.to_asm_op (p.1 % 256))

/-- The firing probe record of `emit_probe_record` in `stap3.rs`
(lines 125-176), one `AsmLine` per emitted assembler line.  The semaphore
descriptor field is the literal `0`; the probe-name string uses
`probe.replace("__", "-")`. -/
def emit_probe_record (prov probe : String) (types : Option (List DataType)) :
    List AsmLine :=
  [ .comment "First define the actual DTrace probe",
    .pushsection note_section_ident,
    .balign 4,
    .byte4 "992f-991f, 994f-993f, 3",
    .label "991",
    .asciz "stapsdt",
    .label "992",
    .balign 4,
    .label "993",
    .byte8 "990b",
    .byte8 "_.stapsdt.base",
    .byte8 "0",
    .asciz prov,
    .asciz (String.replace probe "__" "-"),
    .asciz (probe_arg_format types),
    .label "994",
    .balign 4,
    .popsection,
    .comment "Finally define the base for whatever it is needed (RIP).",
    .ifndef stapsdt_base_sym,
    .pushsection ".stapsdt.base, \"aG\", \"progbits\", .stapsdt.base, comdat",
    .weak "_.stapsdt.base",
    .hidden "_.stapsdt.base",
    .label "_.stapsdt.base",
    .spaceDir 1,
    .sizeDir "_.stapsdt.base" 1,
    .popsection,
    .endif ]

/-- Observer: whether a line pushes the `.note.stapsdt` note section. -/
def isNotePush : AsmLine → Bool
  | .pushsection args => args == note_section_ident
  | _ => false

/-- Observer: the number of note records (counted by their
`.pushsection .note.stapsdt` opening line) in a list of assembly lines. -/
def noteRecordCount (ls : List AsmLine) : Nat :=
  ls.countP isNotePush

/-- Observer: the strings of all `.asciz` directives, in order. -/
def ascizStrings (ls : List AsmLine) : List String :=
  ls.filterMap fun l =>
    match l with
    | .asciz s => some s
    | _ => none

/-- Observer: the argument texts of all `.4byte` directives, in order. -/
def byte4Fields (ls : List AsmLine) : List String :=
  ls.filterMap fun l =>
    match l with
    | .byte4 args => some args
    | _ => none

/-- Observer: the argument texts of all `.8byte` directives, in order. -/
def byte8Fields (ls : List AsmLine) : List String :=
  ls.filterMap fun l =>
    match l with
    | .byte8 arg => some arg
    | _ => none

/-- Observer: whether the lines contain an alignment directive of at least
two bytes. -/
def hasBalignAtLeastTwo (ls : List AsmLine) : Bool :=
  ls.any fun l =>
    match l with
    | .balign n => decide (2 ≤ n)
    | _ => false

/-- One statement of the generated probe implementation block, excluding the
conditional itself.  Mirrors the `quote!` template of `compile_probe` in
`stap3.rs` (lines 188-223): the `extern` semaphore declaration, an inline-asm
stanza (its `"990:   nop"` template line, the attached record string, and
whether the `in_regs` input-operand list is attached), the volatile read of the
semaphore's `is_active` field, and the argument-unpacking block produced by
`common::construct_probe_args`. -/
inductive GenAtom where
  | semaExternDecl (sym : String)
  | asmProbe (templateLine : String) (record : List AsmLine) (hasInputOperands : Bool)
  | volatileReadSema (sym : String)
  | unpackArgs (types : List DataType)
deriving DecidableEq, Repr

/-- A top-level statement of the generated implementation block: either an
atom, or the `if is_enabled != 0 { ... }` conditional with its body.  The
generated code contains no nested conditionals. -/
inductive GenStmt where
  | atom (a : GenAtom)
  | iteNonzero (thenBody : List GenAtom)
deriving DecidableEq, Repr

/-- The implementation block generated by `compile_probe` in `stap3.rs`
(lines 188-223), statement by statement: declare the extern semaphore, emit the
is-enabled trap site and record, read `is_active` with a volatile load, and,
only if the read value is nonzero, unpack the caller's arguments and emit the
firing trap site and record with the input operands attached.  The surrounding
`common::build_probe_macro` wrapper is not under the provided sources; the
block above is what it wraps. -/
def compile_probe (provName probeName : String) (types : List DataType) :
    List GenStmt :=
  [ .atom (.semaExternDecl (sema_name provName probeName)),
    .atom (.asmProbe "990:   nop" (emit_isenabled_probe_record provName probeName) false),
    .atom (.volatileReadSema (sema_name provName probeName)),
    .iteNonzero
      [ .unpackArgs types,
        .asmProbe "990:   nop" (emit_probe_record provName probeName (some types)) true ] ]

/-- Observer: the record lines attached to an atom's asm stanza. -/
def atomRecords : GenAtom → List AsmLine
  | .asmProbe _ rec _ => rec
  | _ => []

/-- Observer: all record lines attached to a top-level generated statement,
including those inside the conditional branch. -/
def stmtRecords : GenStmt → List AsmLine
  | .atom a => atomRecords a
  | .iteNonzero body => (body.map atomRecords).flatten

/-- Observer: all record lines emitted by a generated implementation block. -/
def bodyRecords (body : List GenStmt) : List AsmLine :=
  (body.map stmtRecords).flatten

/-- Execution state of the generated implementation block: the value last
assigned to `is_enabled`, how many volatile semaphore loads ran, whether the
caller's argument thunk was unpacked, and whether the firing trap site (the
asm stanza carrying input operands) executed. -/
structure ExecState where
  isEnabledVal : Nat
  semaReads : Nat
  thunkEvaluated : Bool
  firingTrapExecuted : Bool
deriving DecidableEq, Repr

/-- Execute one atom of the generated block, given the semaphore value the
volatile load observes. -/
def execAtom (semaValue : Nat) (s : ExecState) : GenAtom → ExecState
  | .semaExternDecl _ => s
  | .asmProbe _ _ hasInputOperands =>
    if hasInputOperands then { s with firingTrapExecuted := true } else s
  | .volatileReadSema _ =>
    { s with isEnabledVal := semaValue, semaReads := s.semaReads + 1 }
  | .unpackArgs _ => { s with thunkEvaluated := true }

/-- Execute one top-level statement; the conditional runs its body exactly
when the last volatile load returned a nonzero value. -/
def execStmt (semaValue : Nat) (s : ExecState) : GenStmt → ExecState
  | .atom a => execAtom semaValue s a
  | .iteNonzero body =>
    if s.isEnabledVal ≠ 0 then body.foldl (execAtom semaValue) s else s

/-- Execute a generated implementation block from the initial state. -/
def execBody (semaValue : Nat) (body : List GenStmt) : ExecState :=
  body.foldl (execStmt semaValue)
    { isEnabledVal := 0, semaReads := 0, thunkEvaluated := false,
      firingTrapExecuted := false }

/-- Observer: whether a top-level statement is an argument unpack or a firing
asm stanza (one with input operands) outside any conditional. -/
def isUnguardedUnpackOrFiring : GenStmt → Bool
  | .atom (.unpackArgs _) => true
  | .atom (.asmProbe _ _ true) => true
  | _ => false

/-- Observer: whether a statement is the nonzero-guarded conditional holding
both the argument unpack and the firing asm stanza. -/
def isGuardWithUnpackAndFiring : GenStmt → Bool
  | .iteNonzero body =>
    (body.any fun a => match a with | .unpackArgs _ => true | _ => false) &&
    (body.any fun a => match a with | .asmProbe _ _ true => true | _ => false)
  | _ => false

/-- Modelled from the spec: `crate::Probe` is not under the provided sources;
a probe has a name and an ordered list of parameter types. -/
structure Probe where
  name : String
  types : List DataType
deriving DecidableEq, Repr

/-- Modelled from the spec: `crate::Provider` is not under the provided
sources; a provider has a name and an ordered list of probes. -/
structure Provider where
  name : String
  probes : List Probe
deriving DecidableEq, Repr

/-- Modelled from the spec: `crate::CompileProvidersConfig` is not under the
provided sources; it carries the provider name, an optional probe-name format
and an optional module-name override. -/
structure CompileProvidersConfig where
  provider : Option String
  probe_format : Option String
  module : Option String
deriving DecidableEq, Repr

/-- Modelled from the spec: `CompileProvidersConfig::module_ident` is not
under the provided sources.  The artifact belongs to a module named after the
provider, overridable by the config's `module` field. -/
def CompileProvidersConfig.module_ident (c : CompileProvidersConfig) : String :=
  (c.module.orElse fun _ => c.provider).getD ""

/-- Modelled from the spec: `crate::Error` is not under the provided sources;
the error kinds relevant here are parse failures and registration failures. -/
inductive USDTError where
  | parseError (message : String)
  | registrationFailed (message : String)
deriving DecidableEq, Repr

/-- The generated module wrapping one provider's probe implementations, as
produced by the `quote!` template of `compile_provider` in `stap3.rs`
(lines 60-72): `pub(crate) mod #module { #(#probe_impls)* }`. -/
structure ProviderModule where
  vis : String
  modName : String
  probeImpls : List (List GenStmt)
deriving DecidableEq, Repr

/-- `compile_provider` from `stap3.rs` (lines 60-72): compile every probe of
the provider in order and wrap the implementations in a single `pub(crate)`
module named by `config.module_ident()`. -/
def compile_provider (p : Provider) (config : CompileProvidersConfig) :
    ProviderModule :=
  { vis := "pub(crate)"
    modName := config.module_ident
    probeImpls := p.probes.map fun pr => compile_probe p.name pr.name pr.types }

/-- The per-provider configuration rebuilt inside `compile_provider_source`
(`stap3.rs` lines 37-44): the provider field is set to the parsed provider's
name, `probe_format` is copied from the caller, and `module` defaults to the
provider's name exactly when the caller left it `None`. -/
def resolved_config (provider : Provider) (config : CompileProvidersConfig) :
    CompileProvidersConfig :=
  { provider := some provider.name
    probe_format := config.probe_format
    module :=
      match config.module with
      | none => some provider.name
      | other => other }

/-- `compile_provider_source` from `stap3.rs` (lines 25-51).  The external
D-script front end (`dtrace_parser::File::try_from` followed by the
`Provider::from` conversion) is not under the provided sources and is passed
as the `parseFile` argument, modelled from the spec as yielding either a parse
error or the normalized providers in declaration order.  On parse failure the
error propagates (the `?` operator) and nothing is emitted; on success every
parsed provider is compiled under its resolved configuration and the outputs
are concatenated in parser order. -/
def compile_provider_source
    (parseFile : String → Except USDTError (List Provider))
    (source : String) (config : CompileProvidersConfig) :
    Except USDTError (List ProviderModule) :=
  match parseFile source with
  | .error e => .error e
  | .ok provs =>
    .ok (provs.map fun provider =>
      compile_provider provider (resolved_config provider config))

/-- `register_probes` from `stap3.rs` (lines 227-229): the SystemTap backend
registration hook, whose whole body is `Ok(())`. -/
def register_probes : Except USDTError Unit := Except.ok ()

/-- The results of calling `register_probes` a given number of times, in
order. -/
def register_probes_calls : Nat → List (Except USDTError Unit)
  | 0 => []
  | n + 1 => register_probes_calls n ++ [register_probes]

/-- Modelled from the spec: the compound-argument marshalling of
`common::construct_probe_args` is not under the provided sources.  A
serializable compound is rendered to a JSON string; on serializer failure the
error message itself becomes the argument value delivered to the tracer. -/
def marshal_compound {α : Type} (serializeFn : α → Except String String)
    (v : α) : String :=
  match serializeFn v with
  | .ok s => s
  | .error e => e

/-- Modelled from the spec: the runtime firing of an enabled probe with one
compound argument.  When the semaphore is nonzero the probe fires and the
argument delivered to the tracer is the marshalled string; when it is zero
the probe does not fire. -/
def fire_compound_probe {α : Type} (semaValue : Nat)
    (serializeFn : α → Except String String) (v : α) : Option String :=
  if semaValue ≠ 0 then some (marshal_compound serializeFn v) else none

/-- The serialization error message of the integration example
(`usdt/examples/simple.rs`, `SERIALIZATION_ERROR`). -/
def SERIALIZATION_ERROR : String := "nonono"

/-- The intentionally failing type of the integration example
(`usdt/examples/simple.rs`): a struct with one byte field. -/
structure NotJsonSerializable where
  x : Nat
deriving DecidableEq, Repr

/-- `Serialize for NotJsonSerializable` from `usdt/examples/simple.rs`
(lines 46-50): always returns the custom error `SERIALIZATION_ERROR`. -/
def NotJsonSerializable.serialize (_ : NotJsonSerializable) :
    Except String String :=
  .error SERIALIZATION_ERROR

/-- Modelled from the spec's words (for comparison with the source-derived
`probe_arg_format`): one `Nf@OP` entry per argument, where entry `i` uses the
size code of the i-th type and its ABI operand at register index `i`. -/
def specArgEntries : Nat → List DataType → List String
  | _, [] => []
  | i, t :: ts => (t.to_asm_size ++ "@" ++ t.to_asm_op i) :: specArgEntries (i + 1) ts

/-- Modelled from the spec's words: the argument format is the space-separated
sequence of the per-argument entries, in declared order. -/
def spec_arg_format (ts : List DataType) : String :=
  String.intercalate " " (specArgEntries 0 ts)

/-- The semaphore definition block of the is-enabled record: the ten assembler
lines between the source's `.ifndef` and `.endif` guard (lines 80-89). -/
def sema_block (prov probe : String) : List AsmLine :=
  ((emit_isenabled_probe_record prov probe).drop 1).take 10

/-- The semaphore-symbol properties as the claim states them: the guarded
block defining the weak hidden 2-byte object in `.probes`, and, reading
"naturally aligned" as the block carrying an alignment directive of at least
the object's 2-byte natural alignment. -/
def sema_claimed_properties (prov probe : String) : Prop :=
  sema_block prov probe =
    [ .ifndef (sema_name prov probe),
      .pushsection ".probes, \"aw\", \"progbits\"",
      .weak (sema_name prov probe),
      .hidden (sema_name prov probe),
      .label (sema_name prov probe),
      .zero 2,
      .typeDir (sema_name prov probe) "@object",
      .sizeDir (sema_name prov probe) 2,
      .popsection,
      .endif ]
  ∧ hasBalignAtLeastTwo (sema_block prov probe) = true

/-- The `_.stapsdt.base` anchor definition block shared verbatim by both
emitters (`stap3.rs` lines 108-117 and 160-169): guarded by `.ifndef`, a weak
hidden 1-byte symbol in the `.stapsdt.base` section inside a COMDAT group. -/
def stapsdt_base_block : List AsmLine :=
  [ .ifndef stapsdt_base_sym,
    .pushsection ".stapsdt.base, \"aG\", \"progbits\", .stapsdt.base, comdat",
    .weak "_.stapsdt.base",
    .hidden "_.stapsdt.base",
    .label "_.stapsdt.base",
    .spaceDir 1,
    .sizeDir "_.stapsdt.base" 1,
    .popsection,
    .endif ]

/-- Observer: whether a line opens the guarded anchor definition. -/
def isAnchorGuard : AsmLine → Bool
  | .ifndef sym => sym == "_.stapsdt.base"
  | _ => false

/-- A concrete provider used to instantiate the compile pipeline. -/
def demoProvider : Provider :=
  { name := "test", probes := [{ name := "start", types := [DataType.uint8] }] }

/-- A concrete caller configuration with no module override. -/
def demoConfig : CompileProvidersConfig :=
  { provider := none, probe_format := none, module := none }

/-- A concrete modelled front end: fails on the source text `"bad"`, yields
the demo provider otherwise. -/
def demoParseFile : String → Except USDTError (List Provider) :=
  fun s => if s = "bad" then .error (.parseError "bad") else .ok [demoProvider]

/-- Auxiliary: mapping the source's enumerated entry builder (with the
`as u8` cast modelled as `% 256`) over an index-tagged type list agrees with
the spec-side entries whenever the indices stay below 256. -/
theorem enumFrom_map_eq_specArgEntries (ts : List DataType) :
    ∀ i, i + ts.length ≤ 256 →
    (List.enumFrom i ts).map
      (fun p => p.2.to_asm_size ++ "@" ++ p.2.to_asm_op (p.1 % 256)) =
    specArgEntries i ts := by
  induction ts with
  | nil => intro i _; rfl
  | cons t ts ih =>
    intro i h
    simp only [List.length_cons] at h
    have hi : i % 256 = i := Nat.mod_eq_of_lt (by omega)
    simp only [List.enumFrom, List.map_cons, specArgEntries, hi]
    exact congrArg (List.cons _) (ih (i + 1) (by omega))

/-- C1: for every provider name, probe name and parameter type list, the
generated probe body emits exactly two note records into `.note.stapsdt`,
each with the `992f-991f, 994f-993f, 3` header (note type 3) and the
`stapsdt` vendor string; the is-enabled record's descriptor carries the
`__usdt_sema_P_Q` semaphore symbol and an empty argument-format string, the
firing record carries the literal `0` semaphore and the parameter argument
format, and both descriptors carry the `990b` PC address and the
`_.stapsdt.base` address. -/
theorem stap3_two_note_records_per_probe (prov probe : String)
    (types : List DataType) :
    noteRecordCount (bodyRecords (compile_probe prov probe types)) = 2 ∧
    noteRecordCount (emit_isenabled_probe_record prov probe) = 1 ∧
    noteRecordCount (emit_probe_record prov probe (some types)) = 1 ∧
    byte4Fields (emit_isenabled_probe_record prov probe) =
      ["992f-991f, 994f-993f, 3"] ∧
    byte4Fields (emit_probe_record prov probe (some types)) =
      ["992f-991f, 994f-993f, 3"] ∧
    ascizStrings (emit_isenabled_probe_record prov probe) =
      ["stapsdt", prov, String.replace probe "__" "-", ""] ∧
    ascizStrings (emit_probe_record prov probe (some types)) =
      ["stapsdt", prov, String.replace probe "__" "-",
        probe_arg_format (some types)] ∧
    byte8Fields (emit_isenabled_probe_record prov probe) =
      ["990b", "_.stapsdt.base", sema_name prov probe] ∧
    byte8Fields (emit_probe_record prov probe (some types)) =
      ["990b", "_.stapsdt.base", "0"] :=
  ⟨rfl, rfl, rfl, rfl, rfl, rfl, rfl, rfl, rfl⟩

/-- C2: the firing record's argument-format string is the space-separated
concatenation, in declared order, of one `size@operand` entry per parameter,
entry `i` using the size code of the i-th type and its ABI operand at
register index `i`; a probe with zero parameters has an empty argument-format
string.  The arity bound reflects the spec's six-register limit (under which
the source's `as u8` index cast is the identity). -/
theorem stap3_firing_argument_format (prov probe : String)
    (ts : List DataType) (h : ts.length ≤ 6) :
    probe_arg_format (some ts) = spec_arg_format ts ∧
    (ascizStrings (emit_probe_record prov probe (some ts))).getLast? =
      some (spec_arg_format ts) ∧
    probe_arg_format (some []) = "" := by
  have h1 : probe_arg_format (some ts) = spec_arg_format ts := by
    show String.intercalate " "
        ((List.enumFrom 0 ts).map
          (fun p => p.2.to_asm_size ++ "@" ++ p.2.to_asm_op (p.1 % 256))) =
      spec_arg_format ts
    rw [enumFrom_map_eq_specArgEntries ts 0 (by omega)]
    rfl
  refine ⟨h1, ?_, rfl⟩
  have h2 : ascizStrings (emit_probe_record prov probe (some ts)) =
      ["stapsdt", prov, String.replace probe "__" "-",
        probe_arg_format (some ts)] := rfl
  rw [h2, h1]
  rfl

/-- C2 witness: the `does__it::work(uint8_t, char *)` probe of the test
suite, whose argument format is `1@%dil 8@%rsi`. -/
theorem stap3_firing_argument_format_witness :
    (probe_arg_format (some [DataType.uint8, DataType.charPointer]) =
      spec_arg_format [DataType.uint8, DataType.charPointer] ∧
    (ascizStrings (emit_probe_record "does__it" "work"
        (some [DataType.uint8, DataType.charPointer]))).getLast? =
      some (spec_arg_format [DataType.uint8, DataType.charPointer]) ∧
    probe_arg_format (some []) = "") ∧
    spec_arg_format [DataType.uint8, DataType.charPointer] = "1@%dil 8@%rsi" :=
  ⟨stap3_firing_argument_format "does__it" "work"
      [DataType.uint8, DataType.charPointer] (by decide), rfl⟩

/-- C3: in both the is-enabled record and the firing record, the emitted
probe-name string is the probe name with every `__` occurrence replaced by
`-` (Rust's `str::replace`), while the provider-name string is emitted
verbatim, for every provider and probe name. -/
theorem stap3_probe_name_substitution (prov probe : String)
    (types : Option (List DataType)) :
    (ascizStrings (emit_isenabled_probe_record prov probe))[1]? = some prov ∧
    (ascizStrings (emit_isenabled_probe_record prov probe))[2]? =
      some (String.replace probe "__" "-") ∧
    (ascizStrings (emit_probe_record prov probe types))[1]? = some prov ∧
    (ascizStrings (emit_probe_record prov probe types))[2]? =
      some (String.replace probe "__" "-") :=
  ⟨rfl, rfl, rfl, rfl⟩

/-- C4: the generated probe body reads the semaphore with a single volatile
load, the argument-unpacking block and the firing trap site appear only
inside the nonzero branch of that load, and executing the body evaluates the
caller's thunk and reaches the firing trap exactly when the loaded semaphore
value is nonzero. -/
theorem stap3_semaphore_gating (prov probe : String) (types : List DataType)
    (v : Nat) :
    (compile_probe prov probe types).any isUnguardedUnpackOrFiring = false ∧
    (compile_probe prov probe types).any isGuardWithUnpackAndFiring = true ∧
    (execBody v (compile_probe prov probe types)).semaReads = 1 ∧
    (execBody v (compile_probe prov probe types)).thunkEvaluated = (v != 0) ∧
    (execBody v (compile_probe prov probe types)).firingTrapExecuted =
      (v != 0) := by
  refine ⟨rfl, rfl, ?_, ?_, ?_⟩ <;> cases v <;> rfl

/-- C5 counterexample: at provider `test` and probe `start`, the claimed
semaphore-block properties fail, because the emitted block carries no
alignment directive at all, so the "naturally aligned" conjunct is false. -/
theorem stap3_sema_alignment_counterexample :
    ¬ sema_claimed_properties "test" "start" := by
  unfold sema_claimed_properties
  decide

/-- C5 amended: the is-enabled record defines, guarded by `.ifndef`, the
symbol `__usdt_sema_P_Q` built from the unsubstituted provider and probe
names, in section `.probes`, weak and hidden, of object type and exactly two
zero bytes in size; however no alignment directive is emitted for it. -/
theorem stap3_sema_symbol_properties (prov probe : String) :
    sema_block prov probe =
      [ .ifndef (sema_name prov probe),
        .pushsection ".probes, \"aw\", \"progbits\"",
        .weak (sema_name prov probe),
        .hidden (sema_name prov probe),
        .label (sema_name prov probe),
        .zero 2,
        .typeDir (sema_name prov probe) "@object",
        .sizeDir (sema_name prov probe) 2,
        .popsection,
        .endif ] ∧
    hasBalignAtLeastTwo (sema_block prov probe) = false :=
  ⟨rfl, rfl⟩

/-- C6: both the is-enabled record and the firing record end with the
`.ifndef`-guarded definition of the `_.stapsdt.base` anchor — a weak, hidden,
1-byte symbol in section `.stapsdt.base` inside a COMDAT group — so every
generated probe body (which emits both records) defines the anchor, lazily
and uniquely. -/
theorem stap3_base_anchor_at_end (prov probe : String)
    (types : Option (List DataType)) (tsl : List DataType) :
    (emit_isenabled_probe_record prov probe).drop 30 = stapsdt_base_block ∧
    (emit_isenabled_probe_record prov probe).length = 39 ∧
    (emit_probe_record prov probe types).drop 19 = stapsdt_base_block ∧
    (emit_probe_record prov probe types).length = 28 ∧
    (bodyRecords (compile_probe prov probe tsl)).countP isAnchorGuard = 2 :=
  ⟨rfl, rfl, rfl, rfl, rfl⟩

/-- C7: when a compound argument's serializer fails at firing time, the
failure is not raised: with a nonzero semaphore the probe still fires and the
argument value delivered to the tracer is the serializer's textual error
message. -/
theorem serialization_failure_still_fires {α : Type}
    (serializeFn : α → Except String String) (v : α) (e : String)
    (h : serializeFn v = .error e) (sema : Nat) (hs : sema ≠ 0) :
    fire_compound_probe sema serializeFn v = some e := by
  simp [fire_compound_probe, hs, marshal_compound, h]

/-- C7 witness: firing the enabled probe on the example's intentionally
non-serializable value yields the `nonono` error message as the argument. -/
theorem serialization_failure_witness :
    fire_compound_probe 1 NotJsonSerializable.serialize { x := 0 } =
      some "nonono" :=
  serialization_failure_still_fires NotJsonSerializable.serialize { x := 0 }
    "nonono" rfl 1 (by decide)

/-- C8: `compile_provider_source` propagates a parse failure as an error with
no artifact emitted; on parse success it returns the compiled output of every
parsed provider, in parser order, with nothing omitted. -/
theorem compile_provider_source_errors_and_completeness
    (parseFile : String → Except USDTError (List Provider))
    (source : String) (config : CompileProvidersConfig) :
    (∀ e, parseFile source = .error e →
      compile_provider_source parseFile source config = .error e) ∧
    (∀ provs, parseFile source = .ok provs →
      compile_provider_source parseFile source config =
        .ok (provs.map fun p => compile_provider p (resolved_config p config)) ∧
      (provs.map fun p =>
        compile_provider p (resolved_config p config)).length = provs.length) := by
  constructor
  · intro e he
    simp [compile_provider_source, he]
  · intro provs hp
    simp [compile_provider_source, hp]

/-- C8 witness: with the modelled front end, compiling the failing source
yields the parse error, and compiling the good source yields exactly the one
provider's compiled module. -/
theorem compile_provider_source_witness :
    compile_provider_source demoParseFile "bad" demoConfig =
      .error (.parseError "bad") ∧
    compile_provider_source demoParseFile "good" demoConfig =
      .ok [compile_provider demoProvider
            (resolved_config demoProvider demoConfig)] :=
  ⟨(compile_provider_source_errors_and_completeness demoParseFile "bad"
      demoConfig).1 (.parseError "bad") rfl,
   ((compile_provider_source_errors_and_completeness demoParseFile "good"
      demoConfig).2 [demoProvider] rfl).1⟩

/-- C9: on the SystemTap backend `register_probes` returns success on every
call and performs no work, so any number of repeated calls yields the same
sequence of successes. -/
theorem register_probes_noop_idempotent :
    register_probes = Except.ok () ∧
    ∀ n : Nat,
      register_probes_calls n = List.replicate n (Except.ok ()) := by
  refine ⟨rfl, ?_⟩
  intro n
  induction n with
  | zero => rfl
  | succ k ih =>
    simp [register_probes_calls, ih, register_probes, List.replicate_succ']

/-- C10: `compile_provider_source` resolves the per-provider configuration by
setting the provider field to the parsed provider's name, keeping the
caller's `probe_format`, and defaulting `module` to the provider's name
exactly when the caller left it `None`; `compile_provider` then wraps all
probe implementations in a single `pub(crate)` module named by that
configuration. -/
theorem provider_config_resolution_and_module (p : Provider)
    (config : CompileProvidersConfig) :
    (resolved_config p config).provider = some p.name ∧
    (resolved_config p config).probe_format = config.probe_format ∧
    (config.module = none →
      (resolved_config p config).module = some p.name) ∧
    (∀ m, config.module = some m →
      (resolved_config p config).module = some m) ∧
    (compile_provider p (resolved_config p config)).vis = "pub(crate)" ∧
    (compile_provider p (resolved_config p config)).modName =
      (resolved_config p config).module_ident ∧
    (compile_provider p (resolved_config p config)).probeImpls =
      p.probes.map (fun pr => compile_probe p.name pr.name pr.types) := by
  refine ⟨rfl, rfl, ?_, ?_, rfl, rfl, rfl⟩
  · intro h
    simp [resolved_config, h]
  · intro m h
    simp [resolved_config, h]

/-- C10 witness: with no caller module the resolved module is the provider's
name; with a caller override it is kept. -/
theorem provider_config_resolution_witness :
    (resolved_config demoProvider demoConfig).module = some "test" ∧
    (resolved_config demoProvider
      { provider := none, probe_format := none,
        module := some "m" }).module = some "m" :=
  ⟨(provider_config_resolution_and_module demoProvider demoConfig).2.2.1 rfl,
   (provider_config_resolution_and_module demoProvider
      { provider := none, probe_format := none,
        module := some "m" }).2.2.2.1 "m" rfl⟩
